import Mathlib

/-!
Verification development for the PikPak network client of the Anime-Tracker
extension (`src/lib/pikpak/constants.ts`, `utils.ts`, `errors.ts`, `auth.ts`,
`client.ts`).

The TypeScript code is shallowly embedded:
* nullable string fields (`string | null`) become `Option String`, with
  JavaScript truthiness made explicit (`truthy`);
* the `fetch` network effect is an oracle: each retry attempt of the request
  loop consumes a scripted outcome (`AttemptScript`), and the nested
  `refreshAccessToken` network exchange is likewise scripted;
* platform primitives (`node:crypto` digests, `Date.now`) are parameters of
  the embedding (`CryptoEnv`), since their outputs are opaque to the client
  logic; `Buffer` base64/UTF-8 codecs and `JSON` serialization are modelled
  bit-for-bit by executable Lean functions;
* instance mutation is explicit state passing on `ClientState`, and observable
  effects (attempts with their headers/bodies, sleeps, refresh calls) are
  recorded in an event trace.
-/

namespace PikPak

/-- JavaScript string truthiness for nullable string fields: `null` /
`undefined` and the empty string are falsy, every other string is truthy. -/
def truthy : Option String → Bool
  | none => false
  | some s => s ≠ ""

/-- Model of JavaScript `a || b` on nullable strings: `a` when truthy,
otherwise `b`. -/
def jsOr (a b : Option String) : Option String :=
  if truthy a then a else b

/-- Model of JavaScript `hay.includes(needle)`: some contiguous slice of the
haystack equals the needle. -/
def includesStr (hay needle : String) : Bool :=
  (List.range (hay.data.length + 1)).any fun i => needle.data.isPrefixOf (hay.data.drop i)

/-! ## Constants (`src/lib/pikpak/constants.ts`) -/

/-- `PIKPAK_API_HOST` -/
def PIKPAK_API_HOST : String := "api-drive.mypikpak.com"

/-- `PIKPAK_USER_HOST` -/
def PIKPAK_USER_HOST : String := "user.mypikpak.com"

/-- `CLIENT_ID` -/
def CLIENT_ID : String := "YNxT9w7GMdWvEOKa"

/-- `CLIENT_SECRET` -/
def CLIENT_SECRET : String := "dbw2OtmVEeuUvIptb1Coyg"

/-- `CLIENT_VERSION` -/
def CLIENT_VERSION : String := "1.47.1"

/-- `PACKAGE_NAME` -/
def PACKAGE_NAME : String := "com.pikcloud.pikpak"

/-- `SDK_VERSION` -/
def SDK_VERSION : String := "2.0.4.204000"

/-- `APP_NAME` (aliased to `PACKAGE_NAME` in the source) -/
def APP_NAME : String := PACKAGE_NAME

/-- `SALTS`: the fixed ordered salt list used by the captcha signature
hash chain. -/
def SALTS : List String :=
  [ "Gez0T9ijiI9WCeTsKSg3SMlx",
    "zQdbalsolyb1R/",
    "ftOjr52zt51JD68C3s",
    "yeOBMH0JkbQdEFNNwQ0RI9T3wU/v",
    "BRJrQZiTQ65WtMvwO",
    "je8fqxKPdQVJiy1DM6Bc9Nb1",
    "niV",
    "9hFCW2R1",
    "sHKHpe2i96",
    "p7c5E6AcXQ/IJUuAEC9W6",
    "",
    "aRv9hjc9P+Pbn+u3krN6",
    "BzStcgE8qVdqjEH16l4",
    "SqgeZvL5j9zoHP95xWHt",
    "zVof5yaJkPe3VFpadPof" ]

/-- `DEFAULT_MAX_RETRIES` -/
def DEFAULT_MAX_RETRIES : Nat := 3

/-- `DEFAULT_INITIAL_BACKOFF` (seconds) -/
def DEFAULT_INITIAL_BACKOFF : Nat := 3

/-! ## Crypto environment

The client calls `node:crypto` MD5/SHA-1 hex digests and `Date.now()`.  Those
primitives live outside the client logic, so the embedding takes them as an
environment: an arbitrary digest function of type `String → String` stands for
`createHash("md5")...digest("hex")` (respectively SHA-1), and `now` stands for
`Date.now().toString()`. -/
structure CryptoEnv where
  md5hex : String → String
  sha1hex : String → String
  now : String

/-! ## `src/lib/pikpak/utils.ts` -/

/-- `getTimestamp()`: `Date.now().toString()`, supplied by the environment. -/
def getTimestamp (env : CryptoEnv) : String := env.now

/-- The `for (const salt of SALTS)` loop body of `captchaSign`: repeatedly
replace `sign` with `md5hex(sign + salt)`. -/
def captchaSignLoop (md5hex : String → String) : String → List String → String
  | sign, [] => sign
  | sign, salt :: rest => captchaSignLoop md5hex (md5hex (sign ++ salt)) rest

/-- `captchaSign(deviceId, timestamp)` from `utils.ts`: seed the chain with
`CLIENT_ID + CLIENT_VERSION + PACKAGE_NAME + deviceId + timestamp`, hash-chain
through `SALTS`, and prefix the result with the literal marker `1.`. -/
def captchaSign (md5hex : String → String) (deviceId timestamp : String) : String :=
  "1." ++ captchaSignLoop md5hex
    (CLIENT_ID ++ CLIENT_VERSION ++ PACKAGE_NAME ++ deviceId ++ timestamp) SALTS

/-- `generateDeviceSign(deviceId, packageName)`: SHA-1 of
`deviceId + packageName + "1appkey"`, then MD5 of that hex digest, prefixed
with `div101.` and the device id. -/
def generateDeviceSign (env : CryptoEnv) (deviceId packageName : String) : String :=
  "div101." ++ deviceId ++ env.md5hex (env.sha1hex (deviceId ++ packageName ++ "1appkey"))

/-- `buildCustomUserAgent(deviceId, userId)`: the synthetic Android user-agent
assembled while a captcha token is active. -/
def buildCustomUserAgent (env : CryptoEnv) (deviceId userId : String) : String :=
  let deviceSign := generateDeviceSign env deviceId PACKAGE_NAME
  String.intercalate " "
    [ "ANDROID-" ++ APP_NAME ++ "/" ++ CLIENT_VERSION,
      "protocolVersion/200",
      "accesstype/",
      "clientid/" ++ CLIENT_ID,
      "clientversion/" ++ CLIENT_VERSION,
      "action_type/",
      "networktype/WIFI",
      "sessionid/",
      "deviceid/" ++ deviceId,
      "providername/NONE",
      "devicesign/" ++ deviceSign,
      "refresh_token/",
      "sdkversion/" ++ SDK_VERSION,
      "datetime/" ++ getTimestamp env,
      "usrno/" ++ userId,
      "appname/" ++ APP_NAME,
      "session_origin/",
      "grant_type/",
      "appid/",
      "clientip/",
      "devicename/Xiaomi_M2004j7ac",
      "osversion/13",
      "platformversion/10",
      "accessmode/",
      "devicemodel/M2004J7AC" ]

/-- `generateDeviceIdFromCredentials(username, password)`: MD5 hex digest of
`username + password`. -/
def generateDeviceIdFromCredentials (env : CryptoEnv) (username password : String) : String :=
  env.md5hex (username ++ password)

/-! ## JSON values and `JSON.stringify`

Request bodies are JavaScript object literals whose leaves, for every call the
claims touch, are strings; nested objects occur (captcha metadata).  The
serializer mirrors `JSON.stringify`: members in insertion order, strings
quoted with the standard two-character escapes, remaining control characters
as `\u00XX`, all other characters emitted verbatim. -/

inductive Json where
  | str (s : String)
  | obj (members : List (String × Json))
deriving Repr

/-- Lowercase hex digit, as emitted by `JSON.stringify` unicode escapes. -/
def hexDigit (n : Nat) : Char :=
  if n < 10 then Char.ofNat (48 + n) else Char.ofNat (87 + n)

/-- Escape one character the way `JSON.stringify` quotes string contents. -/
def jsonEscapeChar (c : Char) : List Char :=
  if c = '"' then ['\\', '"']
  else if c = '\\' then ['\\', '\\']
  else if c = Char.ofNat 8 then ['\\', 'b']
  else if c = Char.ofNat 12 then ['\\', 'f']
  else if c = Char.ofNat 10 then ['\\', 'n']
  else if c = Char.ofNat 13 then ['\\', 'r']
  else if c = Char.ofNat 9 then ['\\', 't']
  else if c.toNat < 32 then ['\\', 'u', '0', '0', hexDigit (c.toNat / 16), hexDigit (c.toNat % 16)]
  else [c]

/-- Escape a whole string body. -/
def jsonEscapeList : List Char → List Char
  | [] => []
  | c :: cs => jsonEscapeChar c ++ jsonEscapeList cs

/-- A JSON string literal: quote, escaped body, quote. -/
def quoteChars (s : List Char) : List Char :=
  '"' :: (jsonEscapeList s ++ ['"'])

mutual

/-- `JSON.stringify`, producing the character list of the output. -/
def Json.stringifyChars : Json → List Char
  | .str s => quoteChars s.data
  | .obj ms => '{' :: (stringifyMembers ms ++ ['}'])

/-- Members of an object, comma separated, insertion order. -/
def stringifyMembers : List (String × Json) → List Char
  | [] => []
  | [(k, v)] => quoteChars k.data ++ (':' :: Json.stringifyChars v)
  | (k, v) :: rest =>
      quoteChars k.data ++ (':' :: Json.stringifyChars v) ++ (',' :: stringifyMembers rest)

end

/-- `JSON.stringify` as a `String`-valued function. -/
def Json.stringify (j : Json) : String := ⟨j.stringifyChars⟩

/-! ## Base64 (`Buffer.toString("base64")` / `Buffer.from(_, "base64")`) -/

/-- The base64 alphabet, as an arithmetic sextet-to-character map. -/
def b64chr (n : Nat) : Char :=
  if n < 26 then Char.ofNat (65 + n)
  else if n < 52 then Char.ofNat (97 + (n - 26))
  else if n < 62 then Char.ofNat (48 + (n - 52))
  else if n = 62 then '+'
  else '/'

/-- Inverse character-to-sextet map of the base64 alphabet. -/
def b64val (c : Char) : Nat :=
  if 65 ≤ c.toNat ∧ c.toNat ≤ 90 then c.toNat - 65
  else if 97 ≤ c.toNat ∧ c.toNat ≤ 122 then c.toNat - 97 + 26
  else if 48 ≤ c.toNat ∧ c.toNat ≤ 57 then c.toNat - 48 + 52
  else if c = '+' then 62
  else if c = '/' then 63
  else 0

/-- Base64 encoding of a byte list, with `=` padding, three bytes per
quadruple. -/
def b64enc : List Nat → List Char
  | [] => []
  | [a] => [b64chr (a / 4), b64chr (a % 4 * 16), '=', '=']
  | [a, b] => [b64chr (a / 4), b64chr (a % 4 * 16 + b / 16), b64chr (b % 16 * 4), '=']
  | a :: b :: c :: rest =>
      b64chr (a / 4) :: b64chr (a % 4 * 16 + b / 16) :: b64chr (b % 16 * 4 + c / 64)
        :: b64chr (c % 64) :: b64enc rest

/-- Base64 decoding, consuming quadruples and honouring `=` padding. -/
def b64dec : List Char → List Nat
  | c0 :: c1 :: c2 :: c3 :: rest =>
      if c2 = '=' then [b64val c0 * 4 + b64val c1 / 16]
      else if c3 = '=' then
        [b64val c0 * 4 + b64val c1 / 16, b64val c1 % 16 * 16 + b64val c2 / 4]
      else
        (b64val c0 * 4 + b64val c1 / 16) :: (b64val c1 % 16 * 16 + b64val c2 / 4)
          :: (b64val c2 % 4 * 64 + b64val c3) :: b64dec rest
  | _ => []

/-! ## UTF-8 (`Buffer.from(string)` / `Buffer.toString("utf-8")`) -/

/-- UTF-8 encoding of one unicode scalar value. -/
def utf8encChar (c : Char) : List Nat :=
  if c.toNat < 128 then [c.toNat]
  else if c.toNat < 2048 then [192 + c.toNat / 64, 128 + c.toNat % 64]
  else if c.toNat < 65536 then
    [224 + c.toNat / 4096, 128 + c.toNat / 64 % 64, 128 + c.toNat % 64]
  else
    [240 + c.toNat / 262144, 128 + c.toNat / 4096 % 64, 128 + c.toNat / 64 % 64,
      128 + c.toNat % 64]

/-- UTF-8 encoding of a character list. -/
def utf8enc : List Char → List Nat
  | [] => []
  | c :: cs => utf8encChar c ++ utf8enc cs

/-- UTF-8 decoding: dispatch on the lead byte, consume the matching number
of continuation bytes (cascading so each match is on one list cell). -/
def utf8dec : List Nat → List Char
  | [] => []
  | b :: rest =>
    if b < 128 then Char.ofNat b :: utf8dec rest
    else
      match rest with
      | [] => []
      | b1 :: rest1 =>
        if b < 224 then Char.ofNat ((b - 192) * 64 + (b1 - 128)) :: utf8dec rest1
        else
          match rest1 with
          | [] => []
          | b2 :: rest2 =>
            if b < 240 then
              Char.ofNat ((b - 224) * 4096 + (b1 - 128) * 64 + (b2 - 128)) :: utf8dec rest2
            else
              match rest2 with
              | [] => []
              | b3 :: rest3 =>
                Char.ofNat ((b - 240) * 262144 + (b1 - 128) * 4096 + (b2 - 128) * 64
                  + (b3 - 128)) :: utf8dec rest3

/-! ## `JSON.parse`, restricted to the token-object grammar

`decodeToken` funnels its input through the platform `JSON.parse`.  The
embedding models `JSON.parse` on the grammar `decodeToken` consumes in
practice: an object of two string members.  String literals are parsed in
full generality (all `JSON.stringify` escapes, including `\u` sequences); any
input outside the grammar is modelled as failure (`none`), matching a thrown
`SyntaxError` or an object missing the token fields. -/

/-- Invert a single-character JSON escape. -/
def unescapeChar (c : Char) : Option Char :=
  if c = '"' then some '"'
  else if c = '\\' then some '\\'
  else if c = '/' then some '/'
  else if c = 'b' then some (Char.ofNat 8)
  else if c = 'f' then some (Char.ofNat 12)
  else if c = 'n' then some (Char.ofNat 10)
  else if c = 'r' then some (Char.ofNat 13)
  else if c = 't' then some (Char.ofNat 9)
  else none

/-- Hexadecimal digit value (either case). -/
def hexVal (c : Char) : Option Nat :=
  if 48 ≤ c.toNat ∧ c.toNat ≤ 57 then some (c.toNat - 48)
  else if 97 ≤ c.toNat ∧ c.toNat ≤ 102 then some (c.toNat - 87)
  else if 65 ≤ c.toNat ∧ c.toNat ≤ 70 then some (c.toNat - 55)
  else none

/-- Parse the body of a JSON string literal (after the opening quote) up to
its closing quote; returns the unescaped contents and the remaining input. -/
def parseJsonStringBody : List Char → Option (List Char × List Char)
  | [] => none
  | c :: rest =>
    if c = '"' then some ([], rest)
    else if c = '\\' then
      match rest with
      | [] => none
      | e :: rest2 =>
        if e = 'u' then
          match rest2 with
          | h1 :: h2 :: h3 :: h4 :: rest3 =>
            match hexVal h1, hexVal h2, hexVal h3, hexVal h4, parseJsonStringBody rest3 with
            | some v1, some v2, some v3, some v4, some (s, r) =>
                some (Char.ofNat (v1 * 4096 + v2 * 256 + v3 * 16 + v4) :: s, r)
            | _, _, _, _, _ => none
          | _ => none
        else
          match unescapeChar e, parseJsonStringBody rest2 with
          | some d, some (s, r) => some (d :: s, r)
          | _, _ => none
    else
      match parseJsonStringBody rest with
      | some (s, r) => some (c :: s, r)
      | none => none

/-- Parse one `"key":"value"` member; returns key, value and remaining
input. -/
def parseMember (l : List Char) : Option (String × String × List Char) :=
  match l with
  | [] => none
  | c :: r =>
    if c = '"' then
      match parseJsonStringBody r with
      | none => none
      | some (k, r1) =>
        match r1 with
        | [] => none
        | c1 :: r1a =>
          if c1 = ':' then
            match r1a with
            | [] => none
            | c2 :: r2 =>
              if c2 = '"' then
                match parseJsonStringBody r2 with
                | none => none
                | some (v, r3) => some (⟨k⟩, ⟨v⟩, r3)
              else none
          else none
    else none

/-- Parse a two-member string object and read its `access_token` and
`refresh_token` fields. -/
def parseTokenObj (l : List Char) : Option (String × String) :=
  match l with
  | [] => none
  | c :: r =>
    if c = '{' then
      match parseMember r with
      | none => none
      | some (k1, v1, r1) =>
        match r1 with
        | [] => none
        | c1 :: r2 =>
          if c1 = ',' then
            match parseMember r2 with
            | none => none
            | some (k2, v2, r3) =>
              match r3 with
              | [] => none
              | c2 :: r4 =>
                if c2 = '}' then
                  match r4 with
                  | [] =>
                    match List.lookup "access_token" [(k1, v1), (k2, v2)],
                          List.lookup "refresh_token" [(k1, v1), (k2, v2)] with
                    | some a, some rf => some (a, rf)
                    | _, _ => none
                  | _ => none
                else none
          else none
    else none

/-! ## `encodeToken` / `decodeToken` (`utils.ts`) -/

/-- The access/refresh token pair `encodeToken` serializes. -/
structure TokenPair where
  access_token : String
  refresh_token : String
deriving Repr, DecidableEq

/-- The object literal built inside `encodeToken`. -/
def tokenJson (t : TokenPair) : Json :=
  .obj [("access_token", .str t.access_token), ("refresh_token", .str t.refresh_token)]

/-- `encodeToken(data)`: base64 of the UTF-8 bytes of the JSON serialization
of the two-field token object. -/
def encodeToken (t : TokenPair) : String :=
  ⟨b64enc (utf8enc (tokenJson t).stringifyChars)⟩

/-- `decodeToken(encoded)`: base64-decode, UTF-8 decode, `JSON.parse`, and
read the two token fields; `none` models a thrown parse error. -/
def decodeToken (s : String) : Option TokenPair :=
  match parseTokenObj (utf8dec (b64dec s.data)) with
  | some (a, r) => some ⟨a, r⟩
  | none => none

/-! ## Regular expressions

`login` classifies the username with two JavaScript regex `test` calls
(unanchored substring search).  A small derivative-based matcher executes the
patterns exactly as written in the source. -/

inductive RE where
  | fail
  | eps
  | chr (p : Char → Bool)
  | cat (a b : RE)
  | alt (a b : RE)
  | star (a : RE)

/-- Does the expression accept the empty string? -/
def RE.nullable : RE → Bool
  | .fail => false
  | .eps => true
  | .chr _ => false
  | .cat a b => a.nullable && b.nullable
  | .alt a b => a.nullable || b.nullable
  | .star _ => true

/-- Concatenation with structural simplification (keeps derivatives small). -/
def mkCat : RE → RE → RE
  | .fail, _ => .fail
  | _, .fail => .fail
  | .eps, b => b
  | a, .eps => a
  | a, b => .cat a b

/-- Alternation with structural simplification. -/
def mkAlt : RE → RE → RE
  | .fail, b => b
  | a, .fail => a
  | a, b => .alt a b

/-- Brzozowski derivative with respect to one character. -/
def RE.deriv : RE → Char → RE
  | .fail, _ => .fail
  | .eps, _ => .fail
  | .chr p, c => if p c then .eps else .fail
  | .cat a b, c =>
      if a.nullable then mkAlt (mkCat (a.deriv c) b) (b.deriv c) else mkCat (a.deriv c) b
  | .alt a b, c => mkAlt (a.deriv c) (b.deriv c)
  | .star a, c => mkCat (a.deriv c) (.star a)

/-- Does some (possibly empty) prefix of the input match? -/
def matchesPrefix : RE → List Char → Bool
  | r, [] => r.nullable
  | r, c :: cs => r.nullable || matchesPrefix (r.deriv c) cs

/-- Does some substring starting at any position match? -/
def reSearch (r : RE) : List Char → Bool
  | [] => r.nullable
  | c :: cs => matchesPrefix r (c :: cs) || reSearch r cs

/-- JavaScript `regex.test(s)`: unanchored substring search. -/
def reTest (r : RE) (s : String) : Bool := reSearch r s.data

/-- One-or-more repetition (`x+` is `x x*`). -/
def RE.plus (r : RE) : RE := .cat r (.star r)

/-- Character class from an explicit list. -/
def charIn (cs : List Char) : RE := .chr (fun c => cs.contains c)

/-- Single literal character. -/
def lit (c : Char) : RE := .chr (fun d => d == c)

/-- `\w`: ASCII letters, digits, underscore. -/
def wordChar : RE :=
  .chr (fun c =>
    (65 ≤ c.toNat && c.toNat ≤ 90) || (97 ≤ c.toNat && c.toNat ≤ 122) ||
    (48 ≤ c.toNat && c.toNat ≤ 57) || c == '_')

/-- `\d`: ASCII digit. -/
def digitChar : RE := .chr (fun c => 48 ≤ c.toNat && c.toNat ≤ 57)

/-- Concatenation of a pattern sequence. -/
def catList (l : List RE) : RE := l.foldr RE.cat .eps

/-- Exactly `n` repetitions. -/
def repN (r : RE) : Nat → RE
  | 0 => .eps
  | n + 1 => .cat r (repN r n)

/-- At most `n` repetitions. -/
def upTo (r : RE) : Nat → RE
  | 0 => .eps
  | n + 1 => .alt .eps (.cat r (upTo r n))

/-- The email pattern of `login`:
`\w+([-+.]\w+)*@\w+([-.]\w+)*\.\w+([-.]\w+)*`. -/
def emailPattern : RE :=
  catList
    [ wordChar.plus,
      .star (.cat (charIn ['-', '+', '.']) wordChar.plus),
      lit '@',
      wordChar.plus,
      .star (.cat (charIn ['-', '.']) wordChar.plus),
      lit '.',
      wordChar.plus,
      .star (.cat (charIn ['-', '.']) wordChar.plus) ]

/-- The phone pattern of `login`: `\d{11,18}`. -/
def phonePattern : RE := .cat (repN digitChar 11) (upTo digitChar 7)

/-- The captcha metadata object `login` builds: exactly one of the three
fields is populated, chosen by pattern match on the username. -/
structure LoginMetas where
  email : Option String := none
  phone_number : Option String := none
  username : Option String := none
deriving Repr, DecidableEq

/-- The `metas` classification in `login` (client.ts, the
`if/else if/else` over the two regex tests). -/
def loginMetas (u : String) : LoginMetas :=
  if reTest emailPattern u then { email := some u }
  else if reTest phonePattern u then { phone_number := some u }
  else { username := some u }

/-! ## The share-link pattern of `getShareInfo`

`getShareInfo` runs `/\/s\/([^/]+)(?:.*\/([^/]+))?$/.exec(shareLink)`.  The
matcher below is derived from that regex under JavaScript leftmost-greedy
semantics:

* scanning tries successive start positions left to right;
* at a start position the literal `/s/` must appear, followed by group 1, a
  maximal nonempty run of non-`/` characters (shortening the greedy group can
  never turn a failure into a success for this pattern: the optional tail's
  separator `/` is forced to be the last slash of the remainder, which does
  not depend on the split, and the `.*` region only grows);
* if nothing remains, the optional group is skipped and `$` holds;
* otherwise the optional group must match: `.*\/([^/]+)$` forces the
  separator to be the last `/` of the remainder, group 2 is the nonempty
  segment after it, and the `.*` span before it may not contain a line
  terminator (JavaScript `.` excludes them). -/

/-- JavaScript line terminators, which `.` does not match. -/
def isLineTerminator (c : Char) : Bool :=
  c == Char.ofNat 10 || c == Char.ofNat 13 || c.toNat == 0x2028 || c.toNat == 0x2029

/-- The segment after the last `/` of a character list. -/
def lastSegment (r : List Char) : List Char :=
  (r.reverse.takeWhile (fun c => c ≠ '/')).reverse

/-- Try to match the share pattern anchored at the head of the input. -/
def shareTryAt : List Char → Option (String × Option String)
  | '/' :: 's' :: '/' :: rest =>
    let run := rest.takeWhile (fun c => c ≠ '/')
    if run.isEmpty then none
    else
      let r := rest.drop run.length
      if r.isEmpty then some (⟨run⟩, none)
      else if ¬ r.contains '/' then none
      else
        let tl := lastSegment r
        if tl.isEmpty then none
        else if (r.take (r.length - tl.length - 1)).any isLineTerminator then none
        else some (⟨run⟩, some ⟨tl⟩)
  | _ => none

/-- Leftmost search for the share pattern. -/
def shareScan : List Char → Option (String × Option String)
  | [] => none
  | c :: cs =>
    match shareTryAt (c :: cs) with
    | some res => some res
    | none => shareScan cs

/-- `exec` of the share-link regex: `some (shareId, parentId?)` on a match,
`none` otherwise. -/
def execShareRegex (s : String) : Option (String × Option String) :=
  shareScan s.data

/-! ## Errors (`src/lib/pikpak/errors.ts`)

`PikPakAuthError`, `PikPakRetryError` and `PikPakNetworkError` all extend
`PikPakError`; only `retry` is an `instanceof PikPakRetryError`. -/

inductive PikPakErr where
  | api (message : String) (code : Option Int)
  | auth (message : String)
  | retry (message : String)
  | network (message : String)
deriving Repr, DecidableEq

/-- The `message` property of the thrown error. -/
def PikPakErr.message : PikPakErr → String
  | .api m _ => m
  | .auth m => m
  | .retry m => m
  | .network m => m

/-! ## Client data model (`src/lib/pikpak/client.ts`)

`PikPakResponse` envelopes are JSON objects with optional error fields; token
endpoints additionally carry `access_token` / `refresh_token` / `sub`, and
captcha init carries `captcha_token`.  Remaining payload content is abstracted
into one opaque `payload` string (no claim inspects it). -/

structure Envelope where
  error : Option String := none
  error_code : Option Int := none
  error_description : Option String := none
  captcha_token : Option String := none
  access_token : Option String := none
  refresh_token : Option String := none
  sub : Option String := none
  payload : String := ""
deriving Repr, DecidableEq

/-- The mutable instance fields of `PikPakClient`, plus the LocalStorage cell
managed through `auth.ts` (`stored`; its two components are the decoded
`access_token` / `refresh_token` of the persisted blob). -/
structure ClientState where
  accessToken : Option String := none
  refreshToken : Option String := none
  userId : Option String := none
  deviceId : String := ""
  captchaToken : Option String := none
  maxRetries : Nat := DEFAULT_MAX_RETRIES
  initialBackoff : Nat := DEFAULT_INITIAL_BACKOFF
  stored : Option (Option String × Option String) := none
deriving Repr, DecidableEq

/-- `RequestConfig`: method, url, query parameters (`none` values dropped by
the pipeline), optional JSON body, optional header overrides. -/
structure RequestConfig where
  method : String
  url : String
  params : List (String × Option String) := []
  data : Option Json := none
  headers : Option (List (String × String)) := none

/-- The static desktop user-agent used when no captcha token is active. -/
def mozillaUA : String :=
  "Mozilla/5.0 (Windows NT 10.0; Win64; x64) AppleWebKit/537.36 (KHTML, like Gecko) Chrome/126.0.0.0 Safari/537.36"

/-- `getHeaders(accessToken?)`: user-agent (synthetic iff a captcha token is
active), content type, then conditionally `Authorization`, `X-Captcha-Token`
and `X-Device-Id`, in source order. -/
def getHeaders (env : CryptoEnv) (st : ClientState) (accessToken : Option String) :
    List (String × String) :=
  (([ ("User-Agent",
        if truthy st.captchaToken then buildCustomUserAgent env st.deviceId (st.userId.getD "")
        else mozillaUA),
      ("Content-Type", "application/json; charset=utf-8") ] ++
    (if truthy st.accessToken || truthy accessToken then
      [("Authorization", "Bearer " ++ (jsOr accessToken st.accessToken).getD "")]
     else [])) ++
    (if truthy st.captchaToken then [("X-Captcha-Token", st.captchaToken.getD "")] else [])) ++
    (if st.deviceId ≠ "" then [("X-Device-Id", st.deviceId)] else [])

/-- Token assignment shared by `login` and `refreshAccessToken`: copy
`access_token` / `refresh_token` / `sub` from the response into the instance
fields (`userId` via `sub || null`), then persist via `storeToken`. -/
def applyTokenResponse (st : ClientState) (userInfo : Option Envelope) : ClientState :=
  let a := userInfo.bind Envelope.access_token
  let r := userInfo.bind Envelope.refresh_token
  let s := userInfo.bind Envelope.sub
  { st with accessToken := a, refreshToken := r, userId := jsOr s none, stored := some (a, r) }

/-- `refreshAccessToken()`: guard on a truthy refresh token, then perform the
refresh-token grant.  The nested network exchange (itself a `request` run) is
scripted by `outcome`: `.ok` is the payload the inner call returned, `.error`
the error it threw. -/
def refreshAccessTokenM (st : ClientState) (outcome : Except PikPakErr (Option Envelope)) :
    Except PikPakErr ClientState :=
  if ¬ truthy st.refreshToken then .error (.auth "No refresh token available")
  else
    match outcome with
    | .error e => .error e
    | .ok userInfo => .ok (applyTokenResponse st userInfo)

/-- What one `fetch` of the retry loop produced: a thrown connection-level
error, or a response with HTTP status `ok` and a parsed JSON body (`none`
models an unparsable or null body). -/
inductive FetchOutcome where
  | throwErr (message : String)
  | resp (ok : Bool) (body : Option Envelope)
deriving Repr

/-- Oracle for one attempt of the retry loop: the fetch outcome, and the
outcome of the nested `refreshAccessToken` exchange should this attempt hit
`error_code == 16`. -/
structure AttemptScript where
  outcome : FetchOutcome
  refresh : Except PikPakErr (Option Envelope) := .error (.auth "unused")

/-- Observable effects of the pipeline: an issued attempt (with the headers
and serialized body it carried), a backoff sleep (milliseconds), and an
invocation of `refreshAccessToken`. -/
inductive Event where
  | attempt (headers : List (String × String)) (body : Option String)
  | sleepMs (ms : Nat)
  | refreshCall
deriving Repr, DecidableEq

/-- `handleResponse(response)`: classify a parsed response.  Returns the
result (`.ok` payload or the thrown error), the possibly-refreshed state, and
whether `refreshAccessToken` was invoked. -/
def handleResponse (st : ClientState) (ok : Bool) (body : Option Envelope)
    (refreshOutcome : Except PikPakErr (Option Envelope)) :
    Except PikPakErr (Option Envelope) × ClientState × Bool :=
  match body with
  | none =>
      if ok then (.ok none, st, false) else (.error (.retry "Empty JSON data"), st, false)
  | some j =>
      if ¬ truthy j.error then (.ok (some j), st, false)
      else if j.error = some "invalid_account_or_password" then
        (.error (.auth "Invalid username or password"), st, false)
      else if j.error_code = some 16 then
        match refreshAccessTokenM st refreshOutcome with
        | .ok st1 => (.error (.retry "Token refreshed, please retry"), st1, true)
        | .error e => (.error e, st, true)
      else
        (.error
          (.api (if truthy j.error_description then j.error_description.getD ""
                 else "Unknown Error")
            j.error_code),
          st, false)

/-- The body handed to `fetch`: `config.data ? JSON.stringify(config.data) :
undefined` — every request with a body is serialized by `JSON.stringify`,
including login. -/
def fetchBody (cfg : RequestConfig) : Option String := cfg.data.map Json.stringify

/-- The observable record of one issued `fetch`: the headers actually sent
(`config.headers || this.getHeaders()`) and the serialized body. -/
def attemptEvent (env : CryptoEnv) (cfg : RequestConfig) (st : ClientState) : Event :=
  .attempt (cfg.headers.getD (getHeaders env st none)) (fetchBody cfg)

/-- Prepend this step's events to the outcome of the rest of the loop. -/
def withTrace (pre : List Event)
    (r : Except PikPakErr (Option Envelope) × ClientState × List Event) :
    Except PikPakErr (Option Envelope) × ClientState × List Event :=
  (r.1, r.2.1, pre ++ r.2.2)

/-- The retry loop of `request(config)`.  `fuel` counts the remaining loop
iterations (`maxR - attempt` at every call site, starting from
`(maxR, 0)`); `attempt` is the source's 0-based loop index.  Classification of
a caught error follows the source: a `PikPakRetryError` whose message contains
`"Token refreshed"` loops immediately; any other `PikPakRetryError` and any
non-`PikPakError` exception records the last error and sleeps
`initialBackoff * 1000 * 2 ^ attempt` milliseconds on a non-final attempt;
any other `PikPakError` is rethrown; exhaustion throws a
`PikPakNetworkError` quoting the last error's message. -/
def requestAux (env : CryptoEnv) (script : Nat → AttemptScript) (cfg : RequestConfig)
    (maxR backoff : Nat) :
    Nat → Nat → ClientState → Option String →
      Except PikPakErr (Option Envelope) × ClientState × List Event
  | 0, _, st, lastErr =>
      (.error (.network ("Max retries reached. Last error: " ++ lastErr.getD "undefined")),
        st, [])
  | fuel + 1, attempt, st, _lastErr =>
      match (script attempt).outcome with
      | .throwErr msg =>
          withTrace
            (attemptEvent env cfg st ::
              (if attempt < maxR - 1 then [Event.sleepMs (backoff * 1000 * 2 ^ attempt)]
               else []))
            (requestAux env script cfg maxR backoff fuel (attempt + 1) st (some msg))
      | .resp ok body =>
          match handleResponse st ok body (script attempt).refresh with
          | (.ok v, st1, refreshed) =>
              (.ok v, st1,
                attemptEvent env cfg st :: (if refreshed then [Event.refreshCall] else []))
          | (.error (.retry msg), st1, refreshed) =>
              withTrace
                (attemptEvent env cfg st ::
                  ((if refreshed then [Event.refreshCall] else []) ++
                    (if includesStr msg "Token refreshed" then []
                     else if attempt < maxR - 1 then
                       [Event.sleepMs (backoff * 1000 * 2 ^ attempt)]
                     else [])))
                (requestAux env script cfg maxR backoff fuel (attempt + 1) st1 (some msg))
          | (.error e, st1, refreshed) =>
              (.error e, st1,
                attemptEvent env cfg st :: (if refreshed then [Event.refreshCall] else []))

/-- `request(config)`: run the retry loop from attempt 0 with the instance's
retry budget and backoff base. -/
def request (env : CryptoEnv) (script : Nat → AttemptScript) (cfg : RequestConfig)
    (st : ClientState) : Except PikPakErr (Option Envelope) × ClientState × List Event :=
  requestAux env script cfg st.maxRetries st.initialBackoff st.maxRetries 0 st none

/-! ## Facade operations used by the claims -/

/-- The `defaultMeta` object of `captchaInit`. -/
def captchaInitMeta (env : CryptoEnv) (st : ClientState) : Json :=
  .obj
    [ ("captcha_sign", .str (captchaSign env.md5hex st.deviceId (getTimestamp env))),
      ("client_version", .str "1.47.1"),
      ("package_name", .str "com.pikcloud.pikpak"),
      ("user_id", .str (st.userId.getD "")),
      ("timestamp", .str (getTimestamp env)) ]

/-- The request descriptor `captchaInit(action, meta?)` submits. -/
def captchaInitConfig (env : CryptoEnv) (st : ClientState) (action : String)
    (meta : Option Json) : RequestConfig :=
  { method := "POST",
    url := "https://" ++ PIKPAK_USER_HOST ++ "/v1/shield/captcha/init",
    data := some (.obj
      [ ("client_id", .str CLIENT_ID),
        ("action", .str action),
        ("device_id", .str st.deviceId),
        ("meta", meta.getD (captchaInitMeta env st)) ]) }

/-- The `loginData` object literal of `login`, in source insertion order. -/
def loginData (username password captchaToken : String) : Json :=
  .obj
    [ ("client_id", .str CLIENT_ID),
      ("client_secret", .str CLIENT_SECRET),
      ("password", .str password),
      ("username", .str username),
      ("captcha_token", .str captchaToken) ]

/-- The signin request descriptor of `login`: JSON data plus a header
override that sets only `Content-Type: application/x-www-form-urlencoded`. -/
def loginSigninConfig (username password captchaToken : String) : RequestConfig :=
  { method := "POST",
    url := "https://" ++ PIKPAK_USER_HOST ++ "/v1/auth/signin",
    data := some (loginData username password captchaToken),
    headers := some [("Content-Type", "application/x-www-form-urlencoded")] }

/-- The captcha metadata as the JSON object `login` sends (exactly the
populated field). -/
def LoginMetas.toJson (m : LoginMetas) : Json :=
  .obj
    ((match m.email with | some e => [("email", Json.str e)] | none => []) ++
     (match m.phone_number with | some p => [("phone_number", Json.str p)] | none => []) ++
     (match m.username with | some u => [("username", Json.str u)] | none => []))

/-- `login(username, password)`: recompute the device id from the
credentials, classify the username, negotiate a captcha token for
`POST:<login-url>`, then submit the signin request and store the returned
tokens.  `script1` scripts the captcha-init request run, `script2` the signin
run. -/
def login (env : CryptoEnv) (script1 script2 : Nat → AttemptScript) (st : ClientState)
    (username password : String) :
    Except PikPakErr Unit × ClientState × List Event :=
  let loginUrl := "https://" ++ PIKPAK_USER_HOST ++ "/v1/auth/signin"
  let st0 := { st with deviceId := generateDeviceIdFromCredentials env username password }
  let metas := loginMetas username
  match request env script1
      (captchaInitConfig env st0 ("POST:" ++ loginUrl) (some metas.toJson)) st0 with
  | (.error e, st1, tr1) => (.error e, st1, tr1)
  | (.ok res, st1, tr1) =>
      let captchaToken := res.bind Envelope.captcha_token
      if ¬ truthy captchaToken then (.error (.auth "Failed to get captcha token"), st1, tr1)
      else
        match request env script2
            (loginSigninConfig username password (captchaToken.getD "")) st1 with
        | (.error e, st2, tr2) => (.error e, st2, tr1 ++ tr2)
        | (.ok userInfo, st2, tr2) => (.ok (), applyTokenResponse st2 userInfo, tr1 ++ tr2)

/-- `getDownloadUrl(fileId)`: negotiate a captcha token scoped to
`GET:/drive/v1/files/<fileId>`, set the instance captcha token
(`result.captcha_token || null`), perform the drive GET, and clear the
captcha token on the success path only — the source has no `try`/`finally`,
so a thrown error propagates with the captcha token still set. -/
def getDownloadUrl (env : CryptoEnv) (script1 script2 : Nat → AttemptScript)
    (st : ClientState) (fileId : String) :
    Except PikPakErr (Option Envelope) × ClientState × List Event :=
  match request env script1
      (captchaInitConfig env st ("GET:/drive/v1/files/" ++ fileId) none) st with
  | (.error e, st1, tr1) => (.error e, st1, tr1)
  | (.ok res, st1, tr1) =>
      let tok := res.bind Envelope.captcha_token
      let st2 := { st1 with captchaToken := jsOr tok none }
      match request env script2
          { method := "GET",
            url := "https://" ++ PIKPAK_API_HOST ++ "/drive/v1/files/" ++ fileId }
          st2 with
      | (.error e, st3, tr2) => (.error e, st3, tr1 ++ tr2)
      | (.ok fileInfo, st3, tr2) => (.ok fileInfo, { st3 with captchaToken := none }, tr1 ++ tr2)

/-- `getShareInfo(shareLink, passCode?)`: run the share-link regex; on
failure throw `PikPakError("Invalid share link")` before any request is
issued, otherwise return the descriptor of the single GET it performs
(`match[2] || undefined` for the parent id). -/
def getShareInfo (shareLink : String) (passCode : Option String) :
    Except PikPakErr RequestConfig :=
  match execShareRegex shareLink with
  | none => .error (.api "Invalid share link" none)
  | some (shareId, parentId) =>
      .ok
        { method := "GET",
          url := "https://" ++ PIKPAK_API_HOST ++ "/drive/v1/share",
          params :=
            [ ("limit", some "100"),
              ("thumbnail_size", some "SIZE_LARGE"),
              ("order", some "3"),
              ("share_id", some shareId),
              ("parent_id", parentId),
              ("pass_code", passCode) ] }

/-- `clearStoredToken()` on the storage cell (best effort in the source; the
state-level effect is emptying the cell). -/
def clearStoredTokenM (st : ClientState) : ClientState := { st with stored := none }

/-- `initFromStorage()`: load the persisted token pair (report `false` when
absent), copy it into the in-memory fields, then attempt one refresh; on
refresh failure clear only the persisted token and report `false` — the
in-memory fields keep the loaded values. -/
def initFromStorage (st : ClientState) (refreshOutcome : Except PikPakErr (Option Envelope)) :
    Bool × ClientState :=
  match st.stored with
  | none => (false, st)
  | some (a, r) =>
      let st1 := { st with accessToken := a, refreshToken := r }
      match refreshAccessTokenM st1 refreshOutcome with
      | .ok st2 => (true, st2)
      | .error _ => (false, clearStoredTokenM st1)

/-- `isLoggedIn()`: both tokens strictly non-null (`!==`, not truthiness). -/
def isLoggedIn (st : ClientState) : Bool :=
  st.accessToken.isSome && st.refreshToken.isSome

/-! ## Derived predicates and concrete fixtures used by the statements -/

/-- An attempt whose failure the retry loop retries rather than rethrows: a
thrown (connection-level) error, an unparsable body on a non-ok response, or
an `error_code == 16` envelope whose refresh succeeds and installs a truthy
refresh token (so later 16-attempts can refresh again). -/
def nonFatalAttempt (s : AttemptScript) : Bool :=
  match s.outcome with
  | .throwErr _ => true
  | .resp ok body =>
    match body with
    | none => !ok
    | some j =>
        truthy j.error && !(j.error == some "invalid_account_or_password") &&
        (j.error_code == some 16) &&
        (match s.refresh with
         | .ok u => truthy (u.bind Envelope.refresh_token)
         | .error _ => false)

/-- The `lastError.message` the loop records for a non-fatal attempt. -/
def attemptErrMsg (s : AttemptScript) : String :=
  match s.outcome with
  | .throwErr m => m
  | .resp _ body =>
    match body with
    | none => "Empty JSON data"
    | some _ => "Token refreshed, please retry"

/-- Number of populated captcha metadata fields. -/
def metasCount (m : LoginMetas) : Nat :=
  (if m.email.isSome then 1 else 0) + (if m.phone_number.isSome then 1 else 0) +
    (if m.username.isSome then 1 else 0)

/-- Uppercase hex digit for percent-encoding. -/
def formHexDigit (n : Nat) : Char :=
  if n < 10 then Char.ofNat (48 + n) else Char.ofNat (55 + n)

/-- Percent-encode one character the way `URLSearchParams` serializes form
data: unreserved characters kept, space as `+`, anything else as `%XX` per
UTF-8 byte. -/
def formEncodeChar (c : Char) : List Char :=
  if (48 ≤ c.toNat && c.toNat ≤ 57) || (65 ≤ c.toNat && c.toNat ≤ 90) ||
      (97 ≤ c.toNat && c.toNat ≤ 122) || c ∈ ['*', '-', '.', '_'] then [c]
  else if c = ' ' then ['+']
  else (utf8encChar c).foldr
    (fun b acc => '%' :: formHexDigit (b / 16) :: formHexDigit (b % 16) :: acc) []

/-- Percent-encode a string. -/
def formEncodeStr (s : String) : String :=
  ⟨s.data.foldr (fun c acc => formEncodeChar c ++ acc) []⟩

/-- The serialization the spec asserts for the login body
(`application/x-www-form-urlencoded`): `key=value` pairs joined with `&`.
This is the refinement-comparison definition written from the spec's words —
the source itself never form-encodes any body. -/
def formUrlEncodedBody (pairs : List (String × String)) : String :=
  String.intercalate "&" (pairs.map fun kv => formEncodeStr kv.1 ++ "=" ++ formEncodeStr kv.2)

/-- Environment with identity digests and a fixed clock, for concrete runs
(the client logic never inspects digest output). -/
def identityEnv : CryptoEnv := ⟨fun s => s, fun s => s, "1700000000000"⟩

/-- A logged-in client instance. -/
def loggedInState : ClientState :=
  { accessToken := some "acc0", refreshToken := some "ref0", deviceId := "dev0" }

/-- Script: every attempt answers the captcha-init request with a token. -/
def captchaTokenOkScript : Nat → AttemptScript :=
  fun _ => { outcome := .resp true (some { captcha_token := some "ctok" }) }

/-- Script: every attempt answers with a fatal API error envelope. -/
def fileGetFatalScript : Nat → AttemptScript :=
  fun _ =>
    { outcome := .resp true (some
        { error := some "file_not_found", error_code := some 9,
          error_description := some "not found" }) }

/-- Script: every attempt succeeds with an opaque payload. -/
def fileGetOkScript : Nat → AttemptScript :=
  fun _ => { outcome := .resp true (some { payload := "fileinfo" }) }

/-- A client instance holding only a persisted token pair. -/
def storedOnlyState : ClientState :=
  { deviceId := "dev0", stored := some (some "sa", some "sr") }

/-- The token-expired envelope (`error_code == 16`). -/
def tokenExpiredEnvelope : Envelope :=
  { error := some "unauthenticated", error_code := some 16 }

/-- Payload of a successful refresh exchange. -/
def refreshedTokens : Option Envelope :=
  some { access_token := some "newA", refresh_token := some "newR", sub := some "u1" }

/-- Script: every attempt hits `error_code == 16` and the refresh succeeds. -/
def refresh16Script : Nat → AttemptScript :=
  fun _ => { outcome := .resp true (some tokenExpiredEnvelope), refresh := .ok refreshedTokens }

/-- Script: every attempt throws a connection-level error. -/
def throwScript : Nat → AttemptScript :=
  fun _ => { outcome := .throwErr "boom" }

/-- A plain GET descriptor with no body and no header overrides. -/
def plainGetConfig : RequestConfig :=
  { method := "GET", url := "https://" ++ PIKPAK_API_HOST ++ "/drive/v1/about" }

/-! # Theorems -/

/-- The salt loop of `captchaSign` is the left fold of the rehash step. -/
theorem captchaSignLoop_eq_foldl (md5hex : String → String) :
    ∀ (l : List String) (s : String),
      captchaSignLoop md5hex s l = l.foldl (fun sign salt => md5hex (sign ++ salt)) s := by
  intro l
  induction l with
  | nil => intro s; rfl
  | cons salt rest ih => intro s; simp only [captchaSignLoop, List.foldl]; exact ih _

/-- C5: `captchaSign(deviceId, timestamp)` is a pure deterministic function:
it equals the fixed marker `1.` prepended to the fold, in order, over the
fixed 15-element salt list (one salt being the empty string), of the step
`sign ↦ md5hex (sign ++ salt)`, starting from the seed
`CLIENT_ID ++ CLIENT_VERSION ++ PACKAGE_NAME ++ deviceId ++ timestamp`;
identical inputs always yield identical output, and the output always begins
with `1.`. -/
theorem captchaSign_spec :
    (∀ (md5hex : String → String) (deviceId timestamp : String),
        captchaSign md5hex deviceId timestamp =
          "1." ++ SALTS.foldl (fun sign salt => md5hex (sign ++ salt))
            (CLIENT_ID ++ CLIENT_VERSION ++ PACKAGE_NAME ++ deviceId ++ timestamp))
    ∧ SALTS.length = 15
    ∧ "" ∈ SALTS
    ∧ (∀ (md5hex : String → String) (deviceId timestamp : String),
        ∃ rest, captchaSign md5hex deviceId timestamp = "1." ++ rest)
    ∧ (∀ (md5hex : String → String) (d t d2 t2 : String), d = d2 → t = t2 →
        captchaSign md5hex d t = captchaSign md5hex d2 t2) := by
  refine ⟨?_, by decide, by decide, ?_, ?_⟩
  · intro md5hex deviceId timestamp
    unfold captchaSign
    rw [captchaSignLoop_eq_foldl]
  · intro md5hex deviceId timestamp
    exact ⟨_, rfl⟩
  · intro md5hex d t d2 t2 hd ht
    rw [hd, ht]

/-- Witness for C5 at a concrete input. -/
theorem captchaSign_spec_witness :
    ("dev" : String) = "dev" ∧ ("1700000000000" : String) = "1700000000000" ∧
      captchaSign (fun s => s) "dev" "1700000000000" =
        captchaSign (fun s => s) "dev" "1700000000000" :=
  ⟨rfl, rfl, captchaSign_spec.2.2.2.2 (fun s => s) "dev" "1700000000000" "dev" "1700000000000"
    rfl rfl⟩

/-- C8: `login` classifies the username by pattern match to pick exactly one
captcha metadata field: `user@example.com` populates `email`,
`13800000000` populates `phone_number`, `alice` populates `username`, and
for every username exactly one of the three fields is set. -/
theorem login_username_classification :
    loginMetas "user@example.com" =
      { email := some "user@example.com", phone_number := none, username := none }
    ∧ loginMetas "13800000000" =
      { email := none, phone_number := some "13800000000", username := none }
    ∧ loginMetas "alice" =
      { email := none, phone_number := none, username := some "alice" }
    ∧ ∀ u, metasCount (loginMetas u) = 1 := by
  refine ⟨by decide, by decide, by decide, ?_⟩
  intro u
  unfold loginMetas
  by_cases h1 : reTest emailPattern u
  · simp [h1, metasCount]
  · by_cases h2 : reTest phonePattern u <;> simp [h1, h2, metasCount]

/-- C10: when `initFromStorage` loads a stored token pair and the refresh
fails, it clears only the persisted token and returns `false`, while the
in-memory fields keep the stale values loaded from storage; consequently
`isLoggedIn()` returns `true` on that instance. -/
theorem initFromStorage_stale_session :
    ∀ (st : ClientState) (a r : String) (e : PikPakErr),
      st.stored = some (some a, some r) →
      initFromStorage st (.error e) =
        (false, { st with accessToken := some a, refreshToken := some r, stored := none })
      ∧ isLoggedIn { st with accessToken := some a, refreshToken := some r, stored := none }
          = true := by
  intro st a r e h
  constructor
  · unfold initFromStorage
    rw [h]
    unfold refreshAccessTokenM clearStoredTokenM
    by_cases hr : truthy (some r) <;> simp [hr]
  · simp [isLoggedIn]

/-- Witness for C10 at a concrete instance. -/
theorem initFromStorage_stale_session_witness :
    storedOnlyState.stored = some (some "sa", some "sr")
    ∧ (initFromStorage storedOnlyState (.error (.network "offline")) =
        (false, { storedOnlyState with
                  accessToken := some "sa", refreshToken := some "sr", stored := none })
      ∧ isLoggedIn { storedOnlyState with
                     accessToken := some "sa", refreshToken := some "sr", stored := none }
          = true) :=
  ⟨rfl, initFromStorage_stale_session storedOnlyState "sa" "sr" (.network "offline") rfl⟩

/-- C1 (code bug): `getDownloadUrl` clears the instance captcha token only on
the success path.  With a captcha-init run that returns a token and a drive
GET that throws a fatal API error, the call completes exceptionally with the
captcha token still set; the same call with a succeeding GET clears it. -/
theorem getDownloadUrl_captcha_token_leak :
    (getDownloadUrl identityEnv captchaTokenOkScript fileGetFatalScript loggedInState
        "f1").2.1.captchaToken = some "ctok"
    ∧ (getDownloadUrl identityEnv captchaTokenOkScript fileGetFatalScript loggedInState
        "f1").1 = .error (.api "not found" (some 9))
    ∧ (getDownloadUrl identityEnv captchaTokenOkScript fileGetOkScript loggedInState
        "f1").2.1.captchaToken = none := by
  refine ⟨rfl, rfl, rfl⟩

/-- C7: `getShareInfo` parses a share id and optional nested parent id out of
any string matching the share pattern — `https://host/s/abc123/xyz` yields
share id `abc123` and parent id `xyz` — and for any input the pattern does
not match it fails with the API error `Invalid share link` without issuing
any request (modelled as returning the error in place of the request
descriptor). -/
theorem getShareInfo_parse :
    execShareRegex "https://host/s/abc123/xyz" = some ("abc123", some "xyz")
    ∧ execShareRegex "not-a-share-link" = none
    ∧ (∀ s pc, execShareRegex s = none →
        getShareInfo s pc = .error (.api "Invalid share link" none))
    ∧ (∀ s pc shareId parentId, execShareRegex s = some (shareId, parentId) →
        ∃ cfg, getShareInfo s pc = .ok cfg
          ∧ cfg.params =
              [ ("limit", some "100"),
                ("thumbnail_size", some "SIZE_LARGE"),
                ("order", some "3"),
                ("share_id", some shareId),
                ("parent_id", parentId),
                ("pass_code", pc) ]
          ∧ cfg.url = "https://" ++ PIKPAK_API_HOST ++ "/drive/v1/share"
          ∧ cfg.method = "GET") := by
  refine ⟨by decide, by decide, ?_, ?_⟩
  · intro s pc h
    unfold getShareInfo
    rw [h]
  · intro s pc shareId parentId h
    unfold getShareInfo
    rw [h]
    exact ⟨_, rfl, rfl, rfl, rfl⟩

/-- Witness for C7 at the two scenario inputs. -/
theorem getShareInfo_parse_witness :
    execShareRegex "not-a-share-link" = none
    ∧ getShareInfo "not-a-share-link" none = .error (.api "Invalid share link" none)
    ∧ execShareRegex "https://host/s/abc123/xyz" = some ("abc123", some "xyz")
    ∧ (∃ cfg, getShareInfo "https://host/s/abc123/xyz" (some "pw") = .ok cfg
        ∧ cfg.params =
            [ ("limit", some "100"),
              ("thumbnail_size", some "SIZE_LARGE"),
              ("order", some "3"),
              ("share_id", some "abc123"),
              ("parent_id", some "xyz"),
              ("pass_code", some "pw") ]
        ∧ cfg.url = "https://" ++ PIKPAK_API_HOST ++ "/drive/v1/share"
        ∧ cfg.method = "GET") :=
  ⟨by decide,
   getShareInfo_parse.2.2.1 "not-a-share-link" none (by decide),
   by decide,
   getShareInfo_parse.2.2.2 "https://host/s/abc123/xyz" (some "pw") "abc123" (some "xyz")
     (by decide)⟩

/-- Every entered loop iteration first issues its attempt: the trace of a
run with remaining fuel starts with the attempt event built from the current
state — in particular no sleep ever precedes an attempt within its own
iteration, and none precedes the first attempt of a run. -/
theorem requestAux_trace_head (env : CryptoEnv) (script : Nat → AttemptScript)
    (cfg : RequestConfig) (maxR backoff : Nat) :
    ∀ fuel attempt st le, ∃ tr,
      (requestAux env script cfg maxR backoff (fuel + 1) attempt st le).2.2 =
        attemptEvent env cfg st :: tr := by
  intro fuel attempt st le
  simp only [requestAux]
  cases h : (script attempt).outcome with
  | throwErr msg => exact ⟨_, rfl⟩
  | resp ok body =>
    dsimp only
    rcases hh : handleResponse st ok body (script attempt).refresh with ⟨res, st1, refreshed⟩
    cases res with
    | ok v => exact ⟨_, rfl⟩
    | error e =>
      cases e with
      | retry m => exact ⟨_, rfl⟩
      | api m c => exact ⟨_, rfl⟩
      | auth m => exact ⟨_, rfl⟩
      | network m => exact ⟨_, rfl⟩

/-- C2 (counterexample): the claim that the login body is serialized as
`application/x-www-form-urlencoded` fails on the code.  At a concrete login
the body handed to `fetch` is the `JSON.stringify` text of the login object,
which differs from the form encoding of the same pairs. -/
theorem login_body_not_form_encoded :
    fetchBody (loginSigninConfig "alice" "pw" "ct") =
      some "\x7b\"client_id\":\"YNxT9w7GMdWvEOKa\",\"client_secret\":\"dbw2OtmVEeuUvIptb1Coyg\",\"password\":\"pw\",\"username\":\"alice\",\"captcha_token\":\"ct\"\x7d"
    ∧ formUrlEncodedBody
        [ ("client_id", CLIENT_ID), ("client_secret", CLIENT_SECRET), ("password", "pw"),
          ("username", "alice"), ("captcha_token", "ct") ] =
      "client_id=YNxT9w7GMdWvEOKa&client_secret=dbw2OtmVEeuUvIptb1Coyg&password=pw&username=alice&captcha_token=ct"
    ∧ fetchBody (loginSigninConfig "alice" "pw" "ct") ≠
      some (formUrlEncodedBody
        [ ("client_id", CLIENT_ID), ("client_secret", CLIENT_SECRET), ("password", "pw"),
          ("username", "alice"), ("captcha_token", "ct") ]) := by
  refine ⟨by decide, by decide, by decide⟩

/-- C2 (amended): `login` submits client id, client secret, username,
password and captcha token to the signin endpoint with a header override
setting `Content-Type: application/x-www-form-urlencoded`, but its body —
like every request body — is serialized as JSON by `JSON.stringify`. -/
theorem login_body_json_with_form_header :
    (∀ u p ct, (loginSigninConfig u p ct).headers =
        some [("Content-Type", "application/x-www-form-urlencoded")])
    ∧ (∀ u p ct, (loginSigninConfig u p ct).data = some (loginData u p ct))
    ∧ (∀ u p ct, fetchBody (loginSigninConfig u p ct) =
        some (Json.stringify (loginData u p ct)))
    ∧ (∀ cfg : RequestConfig, fetchBody cfg = cfg.data.map Json.stringify)
    ∧ (∀ env script st u p ct fuel attempt le, ∃ tr,
        (requestAux env script (loginSigninConfig u p ct) st.maxRetries st.initialBackoff
            (fuel + 1) attempt st le).2.2 =
          Event.attempt [("Content-Type", "application/x-www-form-urlencoded")]
            (some (Json.stringify (loginData u p ct))) :: tr) :=
  ⟨fun _ _ _ => rfl, fun _ _ _ => rfl, fun _ _ _ => rfl, fun _ => rfl,
   fun env script st u p ct fuel attempt le => by
    have h := requestAux_trace_head env script (loginSigninConfig u p ct)
      st.maxRetries st.initialBackoff fuel attempt st le
    simpa [attemptEvent, fetchBody] using h⟩

/-- `List.lookup` distributes over append. -/
theorem lookup_append (k : String) :
    ∀ l1 l2 : List (String × String),
      List.lookup k (l1 ++ l2) = (List.lookup k l1).or (List.lookup k l2) := by
  intro l1
  induction l1 with
  | nil => intro l2; simp
  | cons p t ih =>
    intro l2
    obtain ⟨a, b⟩ := p
    simp only [List.cons_append, List.lookup]
    cases h : k == a
    · simp [ih]
    · simp

/-- With a truthy access token on the instance and no per-call token,
`getHeaders` carries `Authorization: Bearer <access token>`. -/
theorem lookup_auth_getHeaders (env : CryptoEnv) (st : ClientState) (a : String)
    (ha : st.accessToken = some a) (hne : a ≠ "") :
    List.lookup "Authorization" (getHeaders env st none) = some ("Bearer " ++ a) := by
  unfold getHeaders
  have hcond : (truthy st.accessToken || truthy none) = true := by
    simp [ha, truthy, hne]
  rw [hcond]
  rw [lookup_append, lookup_append, lookup_append]
  simp only [List.lookup, if_true]
  rw [show ("Authorization" == "User-Agent") = false from by decide,
    show ("Authorization" == "Content-Type") = false from by decide,
    show ("Authorization" == "Authorization") = true from by decide]
  simp [jsOr, truthy, ha]

/-- One loop iteration that hits `error_code == 16` with a successful
refresh: the attempt is followed by exactly one `refreshAccessToken` call and
the loop continues immediately — no sleep — with the refreshed state and the
retry message as last error. -/
theorem requestAux_refresh_step (env : CryptoEnv) (script : Nat → AttemptScript)
    (cfg : RequestConfig) (maxR backoff : Nat) :
    ∀ (fuel attempt : Nat) (st : ClientState) (le : Option String) (ok : Bool)
      (j : Envelope) (u : Option Envelope),
      (script attempt).outcome = .resp ok (some j) →
      truthy j.error = true →
      j.error ≠ some "invalid_account_or_password" →
      j.error_code = some 16 →
      (script attempt).refresh = .ok u →
      truthy st.refreshToken = true →
      requestAux env script cfg maxR backoff (fuel + 1) attempt st le =
        withTrace [attemptEvent env cfg st, Event.refreshCall]
          (requestAux env script cfg maxR backoff fuel (attempt + 1)
            (applyTokenResponse st u) (some "Token refreshed, please retry")) := by
  intro fuel attempt st le ok j u houtcome herr hinv hcode hrefresh hrt
  have hhr : handleResponse st ok (some j) ((script attempt).refresh) =
      (.error (.retry "Token refreshed, please retry"), applyTokenResponse st u, true) := by
    rw [hrefresh]
    unfold handleResponse refreshAccessTokenM
    simp [herr, hinv, hcode, hrt]
  simp only [requestAux, houtcome]
  rw [hhr]
  have hinc : includesStr "Token refreshed, please retry" "Token refreshed" = true := by decide
  simp [hinc]

/-- C3: a token-refresh-triggered retry (the `RetryNow` signal after
`error_code == 16`) proceeds to the next attempt immediately with no sleep
in between; every other retried failure on a non-final attempt sleeps exactly
`initialBackoff * 1000 * 2 ^ attempt` milliseconds, i.e.
`initialBackoffSeconds × 2^(i-1)` seconds before the `i`-th (1-based) retry;
and no delay precedes the first attempt of a run. -/
theorem request_backoff_schedule :
    (∀ env script cfg maxR backoff fuel attempt st le ok j u,
      (script attempt).outcome = .resp ok (some j) →
      truthy j.error = true →
      j.error ≠ some "invalid_account_or_password" →
      j.error_code = some 16 →
      (script attempt).refresh = .ok u →
      truthy st.refreshToken = true →
      ∃ tr,
        (requestAux env script cfg maxR backoff (fuel + 2) attempt st le).2.2 =
          attemptEvent env cfg st :: Event.refreshCall ::
            attemptEvent env cfg (applyTokenResponse st u) :: tr)
    ∧ (∀ env script cfg maxR backoff fuel attempt st le,
      ((∃ m, (script attempt).outcome = .throwErr m) ∨
        (script attempt).outcome = .resp false none) →
      attempt < maxR - 1 →
      ∃ tr,
        (requestAux env script cfg maxR backoff (fuel + 1) attempt st le).2.2 =
          attemptEvent env cfg st ::
            Event.sleepMs (backoff * 1000 * 2 ^ attempt) :: tr)
    ∧ (∀ env script cfg st, 0 < st.maxRetries →
      ∃ h b tr, (request env script cfg st).2.2 = Event.attempt h b :: tr) := by
  refine ⟨?_, ?_, ?_⟩
  · intro env script cfg maxR backoff fuel attempt st le ok j u houtcome herr hinv hcode
      hrefresh hrt
    rw [requestAux_refresh_step env script cfg maxR backoff (fuel + 1) attempt st le ok j u
      houtcome herr hinv hcode hrefresh hrt]
    obtain ⟨tr, htr⟩ := requestAux_trace_head env script cfg maxR backoff fuel (attempt + 1)
      (applyTokenResponse st u) (some "Token refreshed, please retry")
    exact ⟨tr, by simp [withTrace, htr]⟩
  · intro env script cfg maxR backoff fuel attempt st le hout hlt
    rcases hout with ⟨m, hm⟩ | hm
    · simp only [requestAux, hm]
      simp [withTrace, hlt]
    · have hhr : handleResponse st false none ((script attempt).refresh) =
          (.error (.retry "Empty JSON data"), st, false) := rfl
      simp only [requestAux, hm]
      rw [hhr]
      have hinc : includesStr "Empty JSON data" "Token refreshed" = false := by decide
      simp [hinc, withTrace, hlt]
  · intro env script cfg st hpos
    obtain ⟨n, hn⟩ : ∃ n, st.maxRetries = n + 1 :=
      ⟨st.maxRetries - 1, by omega⟩
    unfold request
    rw [hn]
    obtain ⟨tr, htr⟩ := requestAux_trace_head env script cfg (n + 1) st.initialBackoff
      n 0 st none
    exact ⟨_, _, tr, htr⟩

/-- C4: on an `error_code == 16` envelope, `handleResponse` triggers exactly
one `refreshAccessToken` call for that occurrence, the loop re-runs the
request, and — headers being rebuilt by `getHeaders()` when the descriptor
carries no overrides — the retry's `Authorization` header is `Bearer `
followed by the newly issued access token. -/
theorem refresh_retry_uses_new_token :
    ∀ env script cfg maxR backoff fuel attempt st le ok j u a,
      cfg.headers = none →
      (script attempt).outcome = .resp ok (some j) →
      truthy j.error = true →
      j.error ≠ some "invalid_account_or_password" →
      j.error_code = some 16 →
      (script attempt).refresh = .ok u →
      truthy st.refreshToken = true →
      u.bind Envelope.access_token = some a →
      a ≠ "" →
      ∃ tr,
        (requestAux env script cfg maxR backoff (fuel + 2) attempt st le).2.2 =
          attemptEvent env cfg st :: Event.refreshCall ::
            Event.attempt (getHeaders env (applyTokenResponse st u) none) (fetchBody cfg)
            :: tr
        ∧ List.lookup "Authorization" (getHeaders env (applyTokenResponse st u) none) =
            some ("Bearer " ++ a) := by
  intro env script cfg maxR backoff fuel attempt st le ok j u a hheaders houtcome herr hinv
    hcode hrefresh hrt haccess hane
  rw [requestAux_refresh_step env script cfg maxR backoff (fuel + 1) attempt st le ok j u
    houtcome herr hinv hcode hrefresh hrt]
  obtain ⟨tr, htr⟩ := requestAux_trace_head env script cfg maxR backoff fuel (attempt + 1)
    (applyTokenResponse st u) (some "Token refreshed, please retry")
  refine ⟨tr, ?_, ?_⟩
  · simp [withTrace, htr, attemptEvent, hheaders]
  · exact lookup_auth_getHeaders env (applyTokenResponse st u) a
      (by simp [applyTokenResponse, haccess]) hane

/-- Witness for C3 at concrete scripts: an `error_code == 16` run (immediate
retry, one refresh, no sleep), a connection-failure run (sleep of
`3 × 1000 × 2^0` ms before the first retry), and the head of a fresh run. -/
theorem request_backoff_schedule_witness :
    truthy tokenExpiredEnvelope.error = true
    ∧ tokenExpiredEnvelope.error ≠ some "invalid_account_or_password"
    ∧ tokenExpiredEnvelope.error_code = some 16
    ∧ truthy loggedInState.refreshToken = true
    ∧ (0 : Nat) < 3 - 1
    ∧ 0 < loggedInState.maxRetries
    ∧ (∃ tr, (requestAux identityEnv refresh16Script plainGetConfig 3 3 2 0 loggedInState
          none).2.2 =
        attemptEvent identityEnv plainGetConfig loggedInState :: Event.refreshCall ::
          attemptEvent identityEnv plainGetConfig
            (applyTokenResponse loggedInState refreshedTokens) :: tr)
    ∧ (∃ tr, (requestAux identityEnv throwScript plainGetConfig 3 3 3 0 loggedInState
          none).2.2 =
        attemptEvent identityEnv plainGetConfig loggedInState ::
          Event.sleepMs (3 * 1000 * 2 ^ 0) :: tr)
    ∧ (∃ h b tr, (request identityEnv throwScript plainGetConfig loggedInState).2.2 =
        Event.attempt h b :: tr) :=
  ⟨by decide, by decide, rfl, by decide, by decide, by decide,
   request_backoff_schedule.1 identityEnv refresh16Script plainGetConfig 3 3 0 0 loggedInState
     none true tokenExpiredEnvelope refreshedTokens rfl (by decide) (by decide) rfl rfl
     (by decide),
   request_backoff_schedule.2.1 identityEnv throwScript plainGetConfig 3 3 2 0 loggedInState
     none (Or.inl ⟨"boom", rfl⟩) (by decide),
   request_backoff_schedule.2.2 identityEnv throwScript plainGetConfig loggedInState
     (by decide)⟩

/-- A string contains its own suffix: `p ++ s` includes `s`. -/
theorem includesStr_append_right (p s : String) : includesStr (p ++ s) s = true := by
  unfold includesStr
  rw [List.any_eq_true]
  refine ⟨p.data.length, ?_, ?_⟩
  · rw [List.mem_range, String.data_append, List.length_append]
    omega
  · rw [String.data_append, List.drop_left, List.isPrefixOf_iff_prefix]

/-- When every attempt from the current index to the retry budget fails
non-fatally, the loop exhausts its budget and throws the network error
quoting the last attempt's recorded message. -/
theorem requestAux_exhaust (env : CryptoEnv) (script : Nat → AttemptScript)
    (cfg : RequestConfig) (maxR backoff : Nat) :
    ∀ (fuel attempt : Nat) (st : ClientState) (le : Option String),
      fuel = maxR - attempt →
      attempt < maxR →
      truthy st.refreshToken = true →
      (∀ i, attempt ≤ i → i < maxR → nonFatalAttempt (script i) = true) →
      ∃ st2 tr,
        requestAux env script cfg maxR backoff fuel attempt st le =
          (.error (.network ("Max retries reached. Last error: " ++
            attemptErrMsg (script (maxR - 1)))), st2, tr) := by
  intro fuel
  induction fuel with
  | zero => intro attempt st le hfuel hlt hrt hall; omega
  | succ fuel ih =>
    intro attempt st le hfuel hlt hrt hall
    have hnf := hall attempt (le_refl attempt) hlt
    cases houtcome : (script attempt).outcome with
    | throwErr m =>
      simp only [requestAux, houtcome]
      rcases Nat.lt_or_ge (attempt + 1) maxR with hlt2 | hge
      · obtain ⟨st2, tr, heq⟩ := ih (attempt + 1) st (some m) (by omega) hlt2 hrt
          (fun i h1 h2 => hall i (by omega) h2)
        rw [heq]
        exact ⟨st2, _, rfl⟩
      · have hfe : fuel = 0 := by omega
        have hmsg : attemptErrMsg (script (maxR - 1)) = m := by
          rw [show maxR - 1 = attempt from by omega]
          unfold attemptErrMsg
          rw [houtcome]
        subst hfe
        rw [hmsg]
        exact ⟨st, _, rfl⟩
    | resp ok body =>
      cases body with
      | none =>
        have hok : ok = false := by
          unfold nonFatalAttempt at hnf
          rw [houtcome] at hnf
          simpa using hnf
        subst hok
        have hhr : handleResponse st false none ((script attempt).refresh) =
            (.error (.retry "Empty JSON data"), st, false) := rfl
        simp only [requestAux, houtcome]
        rw [hhr]
        dsimp only
        rcases Nat.lt_or_ge (attempt + 1) maxR with hlt2 | hge
        · obtain ⟨st2, tr, heq⟩ := ih (attempt + 1) st (some "Empty JSON data") (by omega)
            hlt2 hrt (fun i h1 h2 => hall i (by omega) h2)
          rw [heq]
          exact ⟨st2, _, rfl⟩
        · have hfe : fuel = 0 := by omega
          have hmsg : attemptErrMsg (script (maxR - 1)) = "Empty JSON data" := by
            rw [show maxR - 1 = attempt from by omega]
            unfold attemptErrMsg
            rw [houtcome]
          subst hfe
          rw [hmsg]
          exact ⟨st, _, rfl⟩
      | some j =>
        have hnf2 := hnf
        unfold nonFatalAttempt at hnf2
        rw [houtcome] at hnf2
        cases hrefresh : (script attempt).refresh with
        | error e => rw [hrefresh] at hnf2; simp at hnf2
        | ok u =>
          rw [hrefresh] at hnf2
          simp only [Bool.and_eq_true, Bool.not_eq_true', beq_eq_false_iff_ne,
            beq_iff_eq] at hnf2
          obtain ⟨⟨⟨herr, hinv⟩, hcode⟩, hurt⟩ := hnf2
          rw [requestAux_refresh_step env script cfg maxR backoff fuel attempt st le ok j u
            houtcome herr hinv hcode hrefresh hrt]
          have hrt2 : truthy (applyTokenResponse st u).refreshToken = true := by
            simpa [applyTokenResponse] using hurt
          rcases Nat.lt_or_ge (attempt + 1) maxR with hlt2 | hge
          · obtain ⟨st2, tr, heq⟩ := ih (attempt + 1) (applyTokenResponse st u)
              (some "Token refreshed, please retry") (by omega) hlt2 hrt2
              (fun i h1 h2 => hall i (by omega) h2)
            rw [heq]
            exact ⟨st2, _, rfl⟩
          · have hfe : fuel = 0 := by omega
            have hmsg : attemptErrMsg (script (maxR - 1)) =
                "Token refreshed, please retry" := by
              rw [show maxR - 1 = attempt from by omega]
              unfold attemptErrMsg
              rw [houtcome]
            subst hfe
            rw [hmsg]
            exact ⟨applyTokenResponse st u, _, rfl⟩

/-- C6: if all `maxRetries` attempts of `request()` end in non-fatal failures
(retry-classified errors or unexpected exceptions such as connection
failures), `request()` fails with a `PikPakNetworkError` whose message
includes the message of the last recorded underlying error. -/
theorem request_exhaustion_network_error :
    ∀ env script cfg st,
      0 < st.maxRetries →
      truthy st.refreshToken = true →
      (∀ i, i < st.maxRetries → nonFatalAttempt (script i) = true) →
      ∃ st2 tr msg,
        request env script cfg st = (.error (.network msg), st2, tr)
        ∧ msg = "Max retries reached. Last error: " ++
            attemptErrMsg (script (st.maxRetries - 1))
        ∧ includesStr msg (attemptErrMsg (script (st.maxRetries - 1))) = true := by
  intro env script cfg st h0 hrt hall
  obtain ⟨st2, tr, heq⟩ := requestAux_exhaust env script cfg st.maxRetries st.initialBackoff
    st.maxRetries 0 st none (by omega) h0 hrt (fun i h1 h2 => hall i h2)
  exact ⟨st2, tr, _, heq, rfl, includesStr_append_right _ _⟩

/-- Witness for C6: three connection failures exhaust the default budget and
surface a network error embedding the last message. -/
theorem request_exhaustion_network_error_witness :
    0 < loggedInState.maxRetries
    ∧ truthy loggedInState.refreshToken = true
    ∧ (∃ st2 tr msg,
        request identityEnv throwScript plainGetConfig loggedInState =
          (.error (.network msg), st2, tr)
        ∧ msg = "Max retries reached. Last error: " ++
            attemptErrMsg (throwScript (loggedInState.maxRetries - 1))
        ∧ includesStr msg (attemptErrMsg (throwScript (loggedInState.maxRetries - 1)))
            = true) :=
  ⟨by decide, by decide,
   request_exhaustion_network_error identityEnv throwScript plainGetConfig loggedInState
     (by decide) (by decide) (fun i _ => rfl)⟩

/-- Unicode scalar values are below `0x110000`. -/
theorem char_toNat_lt (c : Char) : c.toNat < 1114112 := by
  rcases c.valid with h | ⟨h1, h2⟩
  · exact Nat.lt_trans h (by norm_num)
  · exact h2

/-- Every value `utf8encChar` emits is a byte. -/
theorem utf8encChar_lt_256 (c : Char) : ∀ b ∈ utf8encChar c, b < 256 := by
  intro b hb
  have hlt := char_toNat_lt c
  unfold utf8encChar at hb
  by_cases h1 : c.toNat < 128
  · simp [h1] at hb
    omega
  · by_cases h2 : c.toNat < 2048
    · simp [h1, h2] at hb
      rcases hb with hb | hb <;> omega
    · by_cases h3 : c.toNat < 65536
      · simp [h1, h2, h3] at hb
        rcases hb with hb | hb | hb <;> omega
      · simp [h1, h2, h3] at hb
        rcases hb with hb | hb | hb | hb <;> omega

/-- Every value `utf8enc` emits is a byte. -/
theorem utf8enc_lt_256 : ∀ cs : List Char, ∀ b ∈ utf8enc cs, b < 256 := by
  intro cs
  induction cs with
  | nil => intro b hb; simp [utf8enc] at hb
  | cons c t ih =>
    intro b hb
    simp only [utf8enc, List.mem_append] at hb
    rcases hb with hb | hb
    · exact utf8encChar_lt_256 c b hb
    · exact ih b hb

/-- The base64 alphabet maps are mutually inverse on sextets. -/
theorem b64val_b64chr : ∀ n, n < 64 → b64val (b64chr n) = n := by decide

/-- No alphabet character is the padding character. -/
theorem b64chr_ne_pad : ∀ n, n < 64 → b64chr n ≠ '=' := by decide

/-- Byte lists survive the base64 round trip. -/
theorem b64dec_b64enc : ∀ bs : List Nat, (∀ b ∈ bs, b < 256) → b64dec (b64enc bs) = bs := by
  intro bs
  induction bs using b64enc.induct with
  | case1 => intro _; rfl
  | case2 a =>
    intro hb
    have ha := hb a (by simp)
    have h1 := b64val_b64chr (a / 4) (by omega)
    have h2 := b64val_b64chr (a % 4 * 16) (by omega)
    simp [b64enc, b64dec, h1, h2]; omega
  | case3 a b =>
    intro hb
    have ha := hb a (by simp)
    have hbb := hb b (by simp)
    have h1 := b64val_b64chr (a / 4) (by omega)
    have h2 := b64val_b64chr (a % 4 * 16 + b / 16) (by omega)
    have h3 := b64val_b64chr (b % 16 * 4) (by omega)
    have hp := b64chr_ne_pad (b % 16 * 4) (by omega)
    simp [b64enc, b64dec, h1, h2, h3, hp]; omega
  | case4 a b c rest ih =>
    intro hb
    have ha := hb a (by simp)
    have hbb := hb b (by simp)
    have hc := hb c (by simp)
    have hrest : ∀ x ∈ rest, x < 256 := fun x hx => hb x (by simp [hx])
    have h1 := b64val_b64chr (a / 4) (by omega)
    have h2 := b64val_b64chr (a % 4 * 16 + b / 16) (by omega)
    have h3 := b64val_b64chr (b % 16 * 4 + c / 64) (by omega)
    have h4 := b64val_b64chr (c % 64) (by omega)
    have hp1 := b64chr_ne_pad (b % 16 * 4 + c / 64) (by omega)
    have hp2 := b64chr_ne_pad (c % 64) (by omega)
    simp [b64enc, b64dec, h1, h2, h3, h4, hp1, hp2, ih hrest]; omega

/-- Decoding undoes the per-character UTF-8 encoding, whatever follows. -/
theorem utf8dec_encChar (c : Char) (rest : List Nat) :
    utf8dec (utf8encChar c ++ rest) = c :: utf8dec rest := by
  have hlt := char_toNat_lt c
  unfold utf8encChar
  by_cases h1 : c.toNat < 128
  · rw [if_pos h1]
    simp only [List.cons_append, List.nil_append]
    rw [utf8dec.eq_def]
    dsimp only
    rw [if_pos h1, Char.ofNat_toNat]
  · rw [if_neg h1]
    by_cases h2 : c.toNat < 2048
    · rw [if_pos h2]
      simp only [List.cons_append, List.nil_append]
      rw [utf8dec.eq_def]
      dsimp only
      rw [if_neg (by omega), if_pos (by omega)]
      have e : (192 + c.toNat / 64 - 192) * 64 + (128 + c.toNat % 64 - 128) = c.toNat := by
        omega
      rw [e, Char.ofNat_toNat]
    · rw [if_neg h2]
      by_cases h3 : c.toNat < 65536
      · rw [if_pos h3]
        simp only [List.cons_append, List.nil_append]
        rw [utf8dec.eq_def]
        dsimp only
        rw [if_neg (by omega), if_neg (by omega), if_pos (by omega)]
        have e : (224 + c.toNat / 4096 - 224) * 4096 + (128 + c.toNat / 64 % 64 - 128) * 64
            + (128 + c.toNat % 64 - 128) = c.toNat := by omega
        rw [e, Char.ofNat_toNat]
      · rw [if_neg h3]
        simp only [List.cons_append, List.nil_append]
        rw [utf8dec.eq_def]
        dsimp only
        rw [if_neg (by omega), if_neg (by omega), if_neg (by omega)]
        have e : (240 + c.toNat / 262144 - 240) * 262144
            + (128 + c.toNat / 4096 % 64 - 128) * 4096
            + (128 + c.toNat / 64 % 64 - 128) * 64 + (128 + c.toNat % 64 - 128) = c.toNat := by
          omega
        rw [e, Char.ofNat_toNat]

/-- Character lists survive the UTF-8 round trip. -/
theorem utf8dec_utf8enc : ∀ cs : List Char, utf8dec (utf8enc cs) = cs := by
  intro cs
  induction cs with
  | nil => rfl
  | cons c t ih =>
    simp only [utf8enc]
    rw [utf8dec_encChar, ih]

/-- `hexVal` inverts `hexDigit` on nibbles. -/
theorem hexVal_hexDigit : ∀ m, m < 16 → hexVal (hexDigit m) = some m := by decide

/-- The string parser undoes `JSON.stringify` escaping: parsing the escaped
body followed by the closing quote yields the original contents and leaves
the remainder untouched. -/
theorem parse_escaped (s : List Char) : ∀ rest : List Char,
    parseJsonStringBody (jsonEscapeList s ++ '"' :: rest) = some (s, rest) := by
  induction s with
  | nil =>
    intro rest
    rw [show jsonEscapeList [] = [] from rfl, List.nil_append, parseJsonStringBody.eq_def]
    dsimp only
    rw [if_pos rfl]
  | cons c t ih =>
    intro rest
    simp only [jsonEscapeList, List.append_assoc]
    unfold jsonEscapeChar
    by_cases hc1 : c = '"'
    · subst hc1
      rw [if_pos rfl]
      simp only [List.cons_append, List.nil_append]
      rw [parseJsonStringBody.eq_def]
      dsimp only
      rw [if_neg (by decide), if_pos rfl]
      rw [if_neg (by decide)]
      rw [show unescapeChar '"' = some '"' from rfl, ih rest]
    · rw [if_neg hc1]
      by_cases hc2 : c = '\\'
      · subst hc2
        rw [if_pos rfl]
        simp only [List.cons_append, List.nil_append]
        rw [parseJsonStringBody.eq_def]
        dsimp only
        rw [if_neg (by decide), if_pos rfl]
        rw [if_neg (by decide)]
        rw [show unescapeChar '\\' = some '\\' from rfl, ih rest]
      · rw [if_neg hc2]
        by_cases hc3 : c = Char.ofNat 8
        · subst hc3
          rw [if_pos rfl]
          simp only [List.cons_append, List.nil_append]
          rw [parseJsonStringBody.eq_def]
          dsimp only
          rw [if_neg (by decide), if_pos rfl]
          rw [if_neg (by decide)]
          rw [show unescapeChar 'b' = some (Char.ofNat 8) from rfl, ih rest]
        · rw [if_neg hc3]
          by_cases hc4 : c = Char.ofNat 12
          · subst hc4
            rw [if_pos rfl]
            simp only [List.cons_append, List.nil_append]
            rw [parseJsonStringBody.eq_def]
            dsimp only
            rw [if_neg (by decide), if_pos rfl]
            rw [if_neg (by decide)]
            rw [show unescapeChar 'f' = some (Char.ofNat 12) from rfl, ih rest]
          · rw [if_neg hc4]
            by_cases hc5 : c = Char.ofNat 10
            · subst hc5
              rw [if_pos rfl]
              simp only [List.cons_append, List.nil_append]
              rw [parseJsonStringBody.eq_def]
              dsimp only
              rw [if_neg (by decide), if_pos rfl]
              rw [if_neg (by decide)]
              rw [show unescapeChar 'n' = some (Char.ofNat 10) from rfl, ih rest]
            · rw [if_neg hc5]
              by_cases hc6 : c = Char.ofNat 13
              · subst hc6
                rw [if_pos rfl]
                simp only [List.cons_append, List.nil_append]
                rw [parseJsonStringBody.eq_def]
                dsimp only
                rw [if_neg (by decide), if_pos rfl]
                rw [if_neg (by decide)]
                rw [show unescapeChar 'r' = some (Char.ofNat 13) from rfl, ih rest]
              · rw [if_neg hc6]
                by_cases hc7 : c = Char.ofNat 9
                · subst hc7
                  rw [if_pos rfl]
                  simp only [List.cons_append, List.nil_append]
                  rw [parseJsonStringBody.eq_def]
                  dsimp only
                  rw [if_neg (by decide), if_pos rfl]
                  rw [if_neg (by decide)]
                  rw [show unescapeChar 't' = some (Char.ofNat 9) from rfl, ih rest]
                · rw [if_neg hc7]
                  by_cases hc8 : c.toNat < 32
                  · rw [if_pos hc8]
                    simp only [List.cons_append, List.nil_append]
                    rw [parseJsonStringBody.eq_def]
                    dsimp only
                    rw [if_neg (by decide), if_pos rfl]
                    rw [if_pos rfl]
                    rw [show hexVal '0' = some 0 from rfl,
                      hexVal_hexDigit (c.toNat / 16) (by omega),
                      hexVal_hexDigit (c.toNat % 16) (by omega), ih rest]
                    dsimp only
                    have hval : 0 * 4096 + 0 * 256 + c.toNat / 16 * 16 + c.toNat % 16
                        = c.toNat := by omega
                    rw [hval, Char.ofNat_toNat]
                  · rw [if_neg hc8]
                    simp only [List.cons_append, List.nil_append]
                    rw [parseJsonStringBody.eq_def]
                    dsimp only
                    rw [if_neg hc1, if_neg hc2, ih rest]

/-- `parseMember` undoes one serialized `"key":"value"` member. -/
theorem parseMember_quoted (k v : String) (rest : List Char) :
    parseMember (quoteChars k.data ++ (':' :: (quoteChars v.data ++ rest))) =
      some (k, v, rest) := by
  unfold quoteChars
  simp only [List.cons_append, List.append_assoc, List.singleton_append, List.nil_append]
  rw [parseMember.eq_def]
  dsimp only
  rw [if_pos rfl, parse_escaped]
  dsimp only
  rw [if_pos rfl]
  rw [if_pos rfl, parse_escaped]

/-- Parsing the serialized token object recovers the two token fields. -/
theorem parseTokenObj_stringify (t : TokenPair) :
    parseTokenObj (tokenJson t).stringifyChars = some (t.access_token, t.refresh_token) := by
  rw [show (tokenJson t).stringifyChars =
      '{' :: ((quoteChars "access_token".data ++ (':' :: quoteChars t.access_token.data) ++
        (',' :: (quoteChars "refresh_token".data ++
          (':' :: quoteChars t.refresh_token.data)))) ++ [Char.ofNat 125]) from rfl]
  rw [parseTokenObj.eq_def]
  dsimp only
  rw [if_pos rfl]
  simp only [List.cons_append, List.append_assoc, List.singleton_append]
  rw [parseMember_quoted "access_token" t.access_token]
  dsimp only
  rw [if_pos rfl]
  rw [parseMember_quoted "refresh_token" t.refresh_token]
  dsimp only
  rw [if_pos rfl]
  rw [show List.lookup "access_token"
        [("access_token", t.access_token), ("refresh_token", t.refresh_token)] =
      some t.access_token from rfl,
    show List.lookup "refresh_token"
        [("access_token", t.access_token), ("refresh_token", t.refresh_token)] =
      some t.refresh_token from rfl]

/-- C9: token encoding round-trips — for every token pair with string fields,
`decodeToken (encodeToken t)` recovers exactly `t` (`encodeToken` is the
base64 of the UTF-8 bytes of the JSON object holding the two fields, and
`decodeToken` inverts base64, UTF-8 and the JSON parse). -/
theorem decodeToken_encodeToken : ∀ t : TokenPair, decodeToken (encodeToken t) = some t := by
  intro t
  unfold encodeToken decodeToken
  rw [show (String.mk (b64enc (utf8enc (tokenJson t).stringifyChars))).data =
      b64enc (utf8enc (tokenJson t).stringifyChars) from rfl]
  rw [b64dec_b64enc _ (utf8enc_lt_256 _), utf8dec_utf8enc, parseTokenObj_stringify]

/-- Witness for C4 at a concrete `error_code == 16` run: the retry that
follows the single refresh call carries `Authorization: Bearer newA`. -/
theorem refresh_retry_uses_new_token_witness :
    plainGetConfig.headers = none
    ∧ refreshedTokens.bind Envelope.access_token = some "newA"
    ∧ ("newA" : String) ≠ ""
    ∧ (∃ tr, (requestAux identityEnv refresh16Script plainGetConfig 3 3 2 0 loggedInState
          none).2.2 =
        attemptEvent identityEnv plainGetConfig loggedInState :: Event.refreshCall ::
          Event.attempt
            (getHeaders identityEnv (applyTokenResponse loggedInState refreshedTokens) none)
            (fetchBody plainGetConfig) :: tr
        ∧ List.lookup "Authorization"
            (getHeaders identityEnv (applyTokenResponse loggedInState refreshedTokens) none) =
          some ("Bearer " ++ "newA")) :=
  ⟨rfl, rfl, by decide,
   refresh_retry_uses_new_token identityEnv refresh16Script plainGetConfig 3 3 0 0
     loggedInState none true tokenExpiredEnvelope refreshedTokens "newA" rfl rfl (by decide)
     (by decide) rfl rfl (by decide) rfl (by decide)⟩

end PikPak
